import Mathlib

/-!
Verification of the bull repository (clyde/shard.py, bls_utils/dispatch.py).

The definitions below are a shallow embedding of the Python source:
pure control flow becomes Lean functions, the mutable attributes of a
Shard become an explicit ShardState record threaded through a step
function, and the observable side effects of the receive loop (websocket
writes, closes, reconnect calls, dispatcher invocations, task creation)
become an explicit list of Effect values, in program order.
-/

namespace Bull

/-- One decoded JSON leaf value, as stored inside an envelope payload object.
The payloads the shard inspects (READY, Hello) are one-level JSON objects,
so one level of nesting suffices for a faithful embedding of those paths. -/
inductive DLeaf
  | null
  | int (n : Int)
  | str (s : String)
deriving DecidableEq, Repr

/-- The d field of a decoded frame: object, integer, string or null
(shard.py line 202 types it as dict, int or None). -/
inductive DVal
  | null
  | int (n : Int)
  | str (s : String)
  | obj (fields : List (String × DLeaf))
deriving DecidableEq, Repr

/-- Assoc-list lookup used to model Python dict indexing on payload objects. -/
def lookupFields : List (String × DLeaf) → String → Option DLeaf
  | [], _ => none
  | (k, v) :: rest, key => if k = key then some v else lookupFields rest key

/-- Python exception kinds that the modelled code paths can raise. -/
inductive PyError
  | keyError (k : String)
  /-- list.remove on a list not containing the element. -/
  | valueError
  /-- Subscripting or dividing a value of the wrong type. -/
  | typeError
  /-- Reading an instance attribute that was never assigned. -/
  | attributeError (name : String)
  /-- asyncio.Future.set_result on an already-done future. -/
  | invalidStateError
  /-- msgspec.json.decode failure; not caught by the receive loop. -/
  | msgspecDecodeError
  /-- bls_utils.exceptions.ShardError. -/
  | shardError
  /-- The error kind the specification names for Dispatch.remove_call.
  No code in the repository raises it; the constructor exists only so the
  specified behaviour can be stated and compared against the source. -/
  | handlerNotRegistered
deriving DecidableEq, Repr

/-- Python getitem on a payload: d[k].  An object without the key raises
KeyError; subscripting an int, a string or None raises TypeError. -/
def getItem : DVal → String → Except PyError DLeaf
  | .obj fields, k =>
      match lookupFields fields k with
      | some v => .ok v
      | none => .error (.keyError k)
  | _, _ => .error .typeError

/-- The generic frame envelope: op, d, s, t (shard.py lines 199-203).
s and t are read with dict.get and may be absent (None). -/
structure Envelope where
  op : Int
  d : DVal
  s : Option Int
  t : Option String
deriving DecidableEq, Repr

/-- The externally configured identity data that Shard.identify sends
(token, intents, large threshold, library name, shard id and count). -/
structure ShardConfig where
  token : String
  intents : Int
  largeThreshold : Int
  library : String
  shardId : Int
  shardCount : Int
deriving DecidableEq, Repr

/-- An outbound gateway command, as encoded by msgspec.json.encode. -/
inductive Command
  /-- op 1 with d = the current sequence. -/
  | heartbeat (seq : Option Int)
  /-- op 2 identify payload (shard.py lines 275-289). -/
  | identify (cfg : ShardConfig)
  /-- op 6 resume payload: token, session_id, seq (shard.py lines 294-301). -/
  | resume (token : String) (sessionId : Option DLeaf) (seq : Option Int)
deriving DecidableEq, Repr

/-- An observable side effect performed by the shard, in program order. -/
inductive Effect
  /-- Entering the rate limiter context in Shard.send (line 269). -/
  | acquireRateLimiter
  /-- A direct self.ws.send_bytes write of an encoded command. -/
  | wsSendBytes (c : Command)
  /-- self.ws.close, with the code argument when one is passed. -/
  | wsClose (code : Option Int)
  /-- await self.connect(reconnect=...). -/
  | connectCall (reconnect : Bool)
  /-- asyncio.create_task(self.dispatcher.call(t, d)): fire and forget. -/
  | dispatchCall (t : Option String) (d : DVal)
  /-- asyncio.create_task(self.heartbeat_handler(jitter=...)). -/
  | startHeartbeatTask (jitter : Bool)
  /-- self.financed_hello.set_result(None): unblocks a pending connect. -/
  | signalHello
deriving DecidableEq, Repr

/-- The mutable per-shard session state (attributes of the Shard object).
hbReceived models the hb_received future: none when the attribute has
never been assigned, some b when it exists with done() = b.
heartbeatInterval is none until the first Hello assigns it. -/
structure ShardState where
  sequence : Option Int
  sessionId : Option DLeaf
  reconnectBase : Option DLeaf
  heartbeatInterval : Option Rat
  hbReceived : Option Bool
  helloSignalled : Bool
deriving DecidableEq, Repr

/-- The shard state right after init plus connect set up a fresh
(unsignalled) hello future: no sequence, no session, no heartbeat state. -/
def initShardState : ShardState :=
  { sequence := none
    sessionId := none
    reconnectBase := none
    heartbeatInterval := none
    hbReceived := none
    helloSignalled := false }

/-- How one iteration of the receive loop body ends. -/
inductive StepKind
  /-- Fall through (or an explicit continue) to the next frame. -/
  | cont
  /-- A return statement: the loop stops, handle_close does not run. -/
  | returned
  /-- A break statement: the loop stops and handle_close runs. -/
  | broke
  /-- An uncaught exception: the receive task dies with it. -/
  | raised (err : PyError)
deriving DecidableEq, Repr

/-- State, effects and continuation decision of one loop-body iteration. -/
structure StepResult where
  state : ShardState
  effects : List Effect
  kind : StepKind
deriving DecidableEq, Repr

/-- The opcode match statement of the receive loop (shard.py lines 205-247),
evaluated after the sequence has already been stored.  The Python
match-case on integer literals is a first-match equality chain. -/
def processBody (st : ShardState) (e : Envelope) : StepResult :=
  if e.op = 0 then
    if e.t = some "READY" then
      match getItem e.d "session_id" with
      | .error err => ⟨st, [], .raised err⟩
      | .ok sid =>
          let st2 := { st with sessionId := some sid }
          match getItem e.d "resume_gateway_url" with
          | .error err => ⟨st2, [], .raised err⟩
          | .ok rb =>
              ⟨{ st2 with reconnectBase := some rb },
               [.dispatchCall e.t e.d], .cont⟩
    else
      ⟨st, [.dispatchCall e.t e.d], .cont⟩
  else if e.op = 1 then
    ⟨st, [.wsSendBytes (.heartbeat st.sequence)], .cont⟩
  else if e.op = 7 then
    ⟨st, [.wsClose (some 1002), .connectCall true], .returned⟩
  else if e.op = 9 then
    ⟨st, [.wsClose none, .connectCall false], .returned⟩
  else if e.op = 10 then
    match getItem e.d "heartbeat_interval" with
    | .error err => ⟨st, [], .raised err⟩
    | .ok v =>
        match v with
        | .int n =>
            let st2 := { st with heartbeatInterval := some ((n : Rat) / 1000) }
            if st.helloSignalled then
              ⟨st2, [.startHeartbeatTask true], .raised .invalidStateError⟩
            else
              ⟨{ st2 with helloSignalled := true },
               [.startHeartbeatTask true, .signalHello], .cont⟩
        | _ => ⟨st, [], .raised .typeError⟩
  else if e.op = 11 then
    match st.hbReceived with
    | none => ⟨st, [], .raised (.attributeError "_Shard__hb_received")⟩
    | some true => ⟨st, [], .cont⟩
    | some false =>
        ⟨{ st with hbReceived := some true },
         [.startHeartbeatTask false], .cont⟩
  else
    ⟨st, [], .cont⟩

/-- One decoded envelope through the loop body: line 199 stores
data.get(s) into the sequence unconditionally, then the opcode match runs. -/
def processEnvelope (st : ShardState) (e : Envelope) : StepResult :=
  processBody { st with sequence := e.s } e

/-- Result of running the receive loop over a list of decoded envelopes:
final state, all effects in order, the envelopes whose processing began,
and how the run ended. -/
structure RunResult where
  state : ShardState
  effects : List Effect
  consumed : List Envelope
  kind : StepKind
deriving DecidableEq, Repr

/-- Run the loop body over successive envelopes, stopping at the first
iteration that returns, breaks or raises. -/
def runEnvelopes (st : ShardState) : List Envelope → RunResult
  | [] => ⟨st, [], [], .cont⟩
  | e :: es =>
      let r := processEnvelope st e
      if r.kind = .cont then
        let rest := runEnvelopes r.state es
        ⟨rest.state, r.effects ++ rest.effects, e :: rest.consumed, rest.kind⟩
      else
        ⟨r.state, r.effects, [e], r.kind⟩

/-- The zlib sync-flush marker checked at shard.py line 185. -/
def ZLIB_SUFFIX : List Nat := [0, 0, 255, 255]

/-- data[-4:] on a byte string of length at least 4. -/
def lastFour (data : List Nat) : List Nat := data.drop (data.length - 4)

/-- One inbound websocket message as seen by the async-for loop. -/
inductive WSMessage
  | binary (data : List Nat)
  | closed
  /-- Any other message type falls through the if-elif chain untouched. -/
  | textOrOther
deriving DecidableEq, Repr

/-- Outcome of decompressing then JSON-decoding one binary frame.
The decompressor and codec are external collaborators, so the step
function is parameterised over this outcome. -/
inductive DecodeOutcome
  /-- zlib.error: caught at line 191, the frame is skipped. -/
  | zlibError
  /-- A UTF-8 or msgspec decode failure: not caught, the loop dies. -/
  | jsonError
  | ok (e : Envelope)

/-- One iteration of the receive loop on a raw websocket message
(shard.py lines 180-247): the CLOSED check, the binary validity check
(length at least 4 and trailing bytes equal to the flush marker), the
decompress-and-decode step, then the opcode routing. -/
def processMessage (decode : List Nat → DecodeOutcome) (st : ShardState) :
    WSMessage → StepResult
  | .closed => ⟨st, [], .broke⟩
  | .textOrOther => ⟨st, [], .cont⟩
  | .binary data =>
      if data.length < 4 ∨ lastFour data ≠ ZLIB_SUFFIX then
        ⟨st, [], .cont⟩
      else
        match decode data with
        | .zlibError => ⟨st, [], .cont⟩
        | .jsonError => ⟨st, [], .raised .msgspecDecodeError⟩
        | .ok e => processEnvelope st e

/-- Shard.send (lines 257-270): fails with ShardError when no websocket
exists, otherwise enters the rate limiter and only then writes the
encoded command to the transport. -/
def Shard.send (wsExists : Bool) (c : Command) : Except PyError (List Effect) :=
  if wsExists then .ok [.acquireRateLimiter, .wsSendBytes c]
  else .error .shardError

/-- Shard.identify (lines 273-289): builds the op-2 payload and sends it
through Shard.send. -/
def Shard.identify (wsExists : Bool) (cfg : ShardConfig) :
    Except PyError (List Effect) :=
  Shard.send wsExists (.identify cfg)

/-- Shard.resume (lines 292-301): builds the op-6 payload from the stored
session id and sequence and sends it through Shard.send. -/
def Shard.resume (wsExists : Bool) (cfg : ShardConfig) (st : ShardState) :
    Except PyError (List Effect) :=
  Shard.send wsExists (.resume cfg.token st.sessionId st.sequence)

/-- The delay, state change and effects of one heartbeat cycle up to and
including the heartbeat write (shard.py lines 304-323): the sleep for the
interval (scaled by the random draw r from [0,1) on the first, jittered
cycle), the creation of the not-yet-done ack future, and the direct
ws.send_bytes write of the op-1 command.  The subsequent bounded ack wait
and the failure-recovery paths are timing behaviour beyond this step. -/
structure HBStart where
  delay : Rat
  state : ShardState
  effects : List Effect
deriving DecidableEq, Repr

/-- Shard.heartbeat_handler up to the heartbeat send.  Returns none when
the websocket is absent (the early return at line 305) or when the
heartbeat interval attribute was never assigned. -/
def heartbeatHandler (wsExists : Bool) (st : ShardState) (jitter : Bool)
    (r : Rat) : Option HBStart :=
  if wsExists then
    match st.heartbeatInterval with
    | none => none
    | some iv =>
        some { delay := if jitter then iv * r else iv
               state := { st with hbReceived := some false }
               effects := [.wsSendBytes (.heartbeat st.sequence)] }
  else none

/-- The fixed list of close codes shard.py calls RESUMABLE (lines 86-95). -/
def RESUMABLE : List Int := [4000, 4001, 4002, 4003, 4005, 4007, 4008, 4009]

/-- The test at shard.py line 356 is written "code is self.RESUMABLE": a
Python identity comparison between an int and a list object, which is
false for every code.  The membership test the name suggests was not what
the source wrote, so the faithful embedding is the constant false. -/
def codeIsResumableList (_code : Int) : Bool := false

/-- The recovery decision handle_close reaches. -/
inductive CloseAction
  /-- await self.connect(reconnect=True). -/
  | resumeConnect
  /-- await self.connect(): a fresh identify, no resume. -/
  | freshConnect
  /-- raise ShardError: the unrecoverable-session error. -/
  | fatalError
deriving DecidableEq, Repr

/-- What handle_close does: whether the heartbeat task was cancelled and
which recovery branch ran. -/
structure CloseResult where
  hbCancelled : Bool
  action : CloseAction
deriving DecidableEq, Repr

/-- Shard.handle_close (lines 342-364).  hbTaskRunning models
"self.hb_task exists and not self.hb_task.done()".  The branch chain is
evaluated first-match, exactly in source order. -/
def Shard.handle_close (hbTaskRunning : Bool) (code : Option Int) :
    CloseResult :=
  { hbCancelled := hbTaskRunning
    action :=
      match code with
      | none => .resumeConnect
      | some c =>
          if codeIsResumableList c then .resumeConnect
          else if c > 4000 ∨ c = 4000 then .freshConnect
          else if c = 4004 ∨ c = 4011 ∨ c = 4014 then .fatalError
          else .resumeConnect }

/-!
Dispatcher (bls_utils/dispatch.py).

Handlers are CoroFunc objects compared by Python object equality; the
embedding identifies each handler by a natural number and describes what
a handler does to the payload it receives by a small action program, so
that mutation visibility between sibling handlers is expressible.
Payload values live in a two-level heap model: top-level values are
either immutable leaves or references into a heap of mutable objects,
which is how Python dictionaries nest mutable values by reference.
-/

/-- A payload value: an immutable leaf or a reference to a mutable heap
object shared by everyone holding the same dictionary. -/
inductive PVal
  | int (n : Int)
  | str (s : String)
  | ref (r : Nat)
deriving DecidableEq, Repr

/-- A top-level payload mapping, key to value. -/
abbrev PDict := List (String × PVal)

/-- Assoc lookup on a payload mapping. -/
def lookupPD : PDict → String → Option PVal
  | [], _ => none
  | (k, v) :: rest, key => if k = key then some v else lookupPD rest key

/-- The store of mutable objects that payload refs point into. -/
structure Heap where
  cells : List (Nat × PDict)
deriving DecidableEq, Repr

/-- Read the mutable object behind a ref. -/
def Heap.get (h : Heap) (r : Nat) : Option PDict :=
  h.cells.lookup r

/-- Write one field of the mutable object behind a ref. -/
def Heap.setField (h : Heap) (r : Nat) (f : String) (v : PVal) : Heap :=
  ⟨h.cells.map fun cell =>
      if cell.1 = r then (cell.1, (f, v) :: cell.2) else cell⟩

/-- One primitive step a handler can take on the frozen view it received. -/
inductive HAct
  /-- Read view[k] from the frozen top-level mapping. -/
  | readTop (k : String)
  /-- Attempt view[k] = v on the frozen mapping: frozendict rejects item
  assignment, so this raises. -/
  | writeTop (k : String) (v : PVal)
  /-- Read view[k][f] through a shared reference. -/
  | readNested (k : String) (f : String)
  /-- Write view[k][f] = v through a shared reference: this mutates the
  heap object, which the frozen wrapper does not copy. -/
  | writeNested (k : String) (f : String) (v : PVal)
deriving DecidableEq, Repr

/-- What one action produced: the heap it left behind, the value it
observed if any, and whether it raised. -/
structure ActResult where
  heap : Heap
  observation : Option PVal
  errored : Bool
deriving DecidableEq, Repr

/-- Run one action against the frozen view and the shared heap. -/
def runAct (view : PDict) (heap : Heap) : HAct → ActResult
  | .readTop k => ⟨heap, lookupPD view k, false⟩
  | .writeTop _ _ => ⟨heap, none, true⟩
  | .readNested k f =>
      match lookupPD view k with
      | some (.ref r) =>
          ⟨heap, (heap.get r).bind fun d => lookupPD d f, false⟩
      | _ => ⟨heap, none, true⟩
  | .writeNested k f v =>
      match lookupPD view k with
      | some (.ref r) => ⟨heap.setField r f v, none, false⟩
      | _ => ⟨heap, none, true⟩

/-- What one handler invocation produced: the heap it left behind, the
values it observed in order, and whether it raised. -/
structure HandlerResult where
  heap : Heap
  observations : List (Option PVal)
  errored : Bool
deriving DecidableEq, Repr

/-- Run a handler program on the frozen view, threading the heap and
stopping at the first raising action. -/
def runHandler (view : PDict) : Heap → List HAct → HandlerResult
  | heap, [] => ⟨heap, [], false⟩
  | heap, a :: rest =>
      let s := runAct view heap a
      if s.errored then ⟨s.heap, [s.observation], true⟩
      else
        let r := runHandler view s.heap rest
        ⟨r.heap, s.observation :: r.observations, r.errored⟩

/-- The dispatcher registration table: event name to the ordered list of
handler ids (dispatch.py line 47). -/
structure Dispatch where
  events : List (String × List Nat)
deriving DecidableEq, Repr

/-- Assoc lookup on the registration table: self.events.get(type). -/
def lookupEvents : List (String × List Nat) → String → Option (List Nat)
  | [], _ => none
  | (k, v) :: rest, key => if k = key then some v else lookupEvents rest key

/-- Replace the handler list bound to one event name. -/
def setEvents : List (String × List Nat) → String → List Nat →
    List (String × List Nat)
  | [], _, _ => []
  | (k, v) :: rest, key, l =>
      if k = key then (k, l) :: rest else (k, v) :: setEvents rest key l

/-- Dispatch.add_call (lines 50-64): append to the existing list, or on
KeyError bind the event name to a fresh singleton list. -/
def Dispatch.add_call (dp : Dispatch) (invoker : String) (caller : Nat) :
    Dispatch :=
  match lookupEvents dp.events invoker with
  | some l => ⟨setEvents dp.events invoker (l ++ [caller])⟩
  | none => ⟨dp.events ++ [(invoker, [caller])]⟩

/-- Remove the first occurrence of an element, as Python list.remove does
once the element is known to be present. -/
def removeFirst : List Nat → Nat → List Nat
  | [], _ => []
  | x :: xs, c => if x = c then xs else x :: removeFirst xs c

/-- Dispatch.remove_call (lines 67-78): the body is exactly
self.events[invoker].remove(caller), so an unknown event name raises the
builtin KeyError from the subscript and an absent handler raises the
builtin ValueError from list.remove. -/
def Dispatch.remove_call (dp : Dispatch) (invoker : String) (caller : Nat) :
    Except PyError Dispatch :=
  match lookupEvents dp.events invoker with
  | none => .error (.keyError invoker)
  | some l =>
      if caller ∈ l then
        .ok ⟨setEvents dp.events invoker (removeFirst l caller)⟩
      else .error .valueError

/-- Run the registered handlers in order on the shared frozen view,
threading the heap through them, as asyncio.gather does for coroutines
that never suspend. -/
def runHandlers (prog : Nat → List HAct) (view : PDict) :
    Heap → List Nat → Heap × List HandlerResult
  | heap, [] => (heap, [])
  | heap, c :: cs =>
      let r := runHandler view heap (prog c)
      let rest := runHandlers prog view r.heap cs
      (rest.1, r :: rest.2)

/-- What one Dispatch.call invocation produced. -/
structure CallResult where
  heap : Heap
  invoked : List Nat
  results : List HandlerResult
deriving DecidableEq, Repr

/-- Dispatch.call (lines 81-106): look up the handler list with dict.get
and return at once when it is absent; otherwise wrap the payload in a
frozendict — an immutable copy of the top-level mapping whose values,
including references to mutable objects, are shared — and run every
handler on that same frozen view. -/
def Dispatch.call (prog : Nat → List HAct) (dp : Dispatch) (t : String)
    (data : PDict) (heap : Heap) : CallResult :=
  match lookupEvents dp.events t with
  | none => ⟨heap, [], []⟩
  | some callers =>
      let frozen := data
      let r := runHandlers prog frozen heap callers
      ⟨r.1, callers, r.2⟩

/-- Whether a payload value is a reference to a mutable heap object. -/
def PVal.isRef : PVal → Bool
  | .ref _ => true
  | _ => false

/-- True when no value of the payload mapping is a reference to a
mutable heap object, that is, the payload is one flat immutable level. -/
def noRefs (d : PDict) : Bool :=
  d.all fun kv => !kv.2.isRef

/-!
RateLimiter.

Modelled from the spec: src/clyde/shard_rate_limiter.py is imported by
shard.py but is not part of the provided sources, so the RateLimiter is
modelled from the specification, section 4.2: a fixed-window token gate
of capacity tokens per window; acquire suspends the caller while no
token is available, enqueueing a waiter, and a granted acquire decrements
the available count and schedules the one-shot reset; the reset restores
the available count to capacity and releases up to capacity waiters in
last-in-first-out order, rescheduling itself while waiters remain.
-/

/-- Modelled from the spec: the RateLimiter state of section 3 — capacity,
available tokens, the pending acquire requests in enqueue order (oldest
first), and the reset-scheduled flag. -/
structure RateLimiter where
  capacity : Nat
  available : Nat
  waiters : List Nat
  resetScheduled : Bool
deriving DecidableEq, Repr

/-- Modelled from the spec: acquire suspends (enqueues a waiter, returning
false) while no token is available; otherwise it takes a token, ensures a
reset is scheduled, and returns true for granted. -/
def RateLimiter.acquire (rl : RateLimiter) (w : Nat) : RateLimiter × Bool :=
  if rl.available = 0 then
    ({ rl with waiters := rl.waiters ++ [w] }, false)
  else
    ({ rl with available := rl.available - 1, resetScheduled := true }, true)

/-- Modelled from the spec: the reset callback restores available to
capacity, then releases up to capacity waiters in last-in-first-out order
(the most recently queued waiter first), each released waiter consuming
one token; it reschedules itself exactly when waiters remain.  Returns
the new state and the released waiters in grant order. -/
def RateLimiter.reset (rl : RateLimiter) : RateLimiter × List Nat :=
  let n := min rl.capacity rl.waiters.length
  let released := (rl.waiters.drop (rl.waiters.length - n)).reverse
  let remaining := rl.waiters.take (rl.waiters.length - n)
  ({ rl with
      available := rl.capacity - n
      waiters := remaining
      resetScheduled := !remaining.isEmpty }, released)

/-- The s field of the last envelope of a list, or the default when the
list is empty: what line 199 leaves in the sequence after a run. -/
def lastS (dflt : Option Int) : List Envelope → Option Int
  | [] => dflt
  | e :: es => lastS e.s es

/-- A decoder outcome standing for a decompressor that yields bytes which
decode to an ordinary envelope; used to exercise the receive loop on a
frame that passes the validity check. -/
def decodeCex : List Nat → DecodeOutcome :=
  fun _ => .ok ⟨2, .null, some 7, none⟩

/-- Two handlers for the mutation-visibility counterexample: handler 1
writes a nested field through the shared payload reference, every other
handler reads that field. -/
def progCex : Nat → List HAct := fun h =>
  if h = 1 then [.writeNested "x" "y" (.int 2)] else [.readNested "x" "y"]

/-!  Theorems. -/

/-- The opcode router never changes the stored sequence: line 199 already
assigned it before the match statement runs. -/
theorem processBody_sequence (st : ShardState) (e : Envelope) :
    (processBody st e).state.sequence = st.sequence := by
  unfold processBody
  repeat' split
  all_goals rfl

/-- Processing one envelope leaves exactly that envelope's s field in the
sequence, whatever the opcode branch did. -/
theorem processEnvelope_sequence (st : ShardState) (e : Envelope) :
    (processEnvelope st e).state.sequence = e.s := by
  unfold processEnvelope
  simpa using processBody_sequence { st with sequence := e.s } e

/-- Claim C1: for every close code numerically at least 4000 — including
the fatal codes 4004, 4011 and 4014 — handle_close cancels a running
heartbeat task and performs a fresh (non-resume) connect, and the fatal
branch is never taken for any code at all, because the numeric range test
of branch (3) is evaluated before the fatal-set test of branch (4). -/
theorem c1_handle_close_ge_4000_fresh (hb : Bool) (c : Int)
    (h : 4000 ≤ c) :
    (Shard.handle_close hb (some c)).action = CloseAction.freshConnect ∧
    (Shard.handle_close hb (some c)).hbCancelled = hb ∧
    ∀ hb2 code, (Shard.handle_close hb2 code).action ≠ CloseAction.fatalError := by
  refine ⟨?_, rfl, ?_⟩
  · unfold Shard.handle_close codeIsResumableList
    simp only
    rw [if_neg (by simp), if_pos (by omega)]
  · intro hb2 code
    unfold Shard.handle_close codeIsResumableList
    cases code with
    | none => simp
    | some c2 =>
        simp only
        split_ifs with h1 h2 h3 <;> simp_all
        omega

/-- Claim C1 witness: the fatal-set code 4011 with a running heartbeat
task gives a cancelled task and a fresh connect. -/
theorem c1_witness :
    (Shard.handle_close true (some 4011)).action = CloseAction.freshConnect ∧
    (Shard.handle_close true (some 4011)).hbCancelled = true ∧
    ∀ hb2 code, (Shard.handle_close hb2 code).action ≠ CloseAction.fatalError :=
  c1_handle_close_ge_4000_fresh true 4011 (by norm_num)

/-- Claim C2 (amended): line 199 overwrites the stored sequence with the
s field of every processed frame, null included, so after any run the
sequence equals the s field of the last envelope whose processing began
(the prior value only when none was processed); it is not the last
non-null s and it may reset to null or decrease. -/
theorem c2_sequence_equals_last_consumed (st : ShardState)
    (es : List Envelope) :
    (runEnvelopes st es).state.sequence
      = lastS st.sequence (runEnvelopes st es).consumed := by
  induction es generalizing st with
  | nil => rfl
  | cons e es ih =>
      simp only [runEnvelopes]
      split
      · rw [lastS, ih, processEnvelope_sequence]
      · simp [lastS, processEnvelope_sequence]

/-- Claim C2 counterexample: an envelope with s = 5 followed by one whose
s field is null leaves the sequence null, not 5 as the claim (last
non-null s, never decreasing) requires. -/
theorem c2_counterexample :
    (runEnvelopes initShardState
        [⟨2, .null, some 5, none⟩, ⟨2, .null, none, none⟩]).state.sequence
      = none ∧
    (none : Option Int) ≠ some 5 := by
  constructor
  · rfl
  · decide

/-- Claim C3 (amended): identify and resume pass through Shard.send,
which acquires the rate limiter before the transport write; but
heartbeats are not on that path — both the reply to an opcode-1
heartbeat request inside the receive loop and the periodic heartbeat of
the heartbeat handler are written directly to the websocket with no rate
limiter acquisition. -/
theorem c3_send_paths (cfg : ShardConfig) (st : ShardState) (c : Command)
    (e : Envelope) (hop : e.op = 1) :
    Shard.send true c = .ok [.acquireRateLimiter, .wsSendBytes c] ∧
    Shard.identify true cfg
      = .ok [.acquireRateLimiter, .wsSendBytes (.identify cfg)] ∧
    Shard.resume true cfg st
      = .ok [.acquireRateLimiter,
             .wsSendBytes (.resume cfg.token st.sessionId st.sequence)] ∧
    (processEnvelope st e).effects = [.wsSendBytes (.heartbeat e.s)] ∧
    Effect.acquireRateLimiter ∉ (processEnvelope st e).effects ∧
    ∀ st2 j r hb, heartbeatHandler true st2 j r = some hb →
      hb.effects = [.wsSendBytes (.heartbeat st2.sequence)] ∧
      Effect.acquireRateLimiter ∉ hb.effects := by
  obtain ⟨op, d, sq, tv⟩ := e
  simp only at hop
  subst hop
  have hpe : processEnvelope st ⟨1, d, sq, tv⟩
      = ⟨{ st with sequence := sq },
         [.wsSendBytes (.heartbeat sq)], .cont⟩ := by
    simp [processEnvelope, processBody]
  refine ⟨rfl, rfl, rfl, by rw [hpe], by rw [hpe]; simp, ?_⟩
  intro st2 j r hb hEq
  cases hI : st2.heartbeatInterval with
  | none => simp [heartbeatHandler, hI] at hEq
  | some iv =>
      simp only [heartbeatHandler, hI, if_true] at hEq
      obtain rfl := Option.some_inj.mp hEq
      simp

/-- Claim C3 witness: the rate-limited and direct paths at a concrete
configuration, state and opcode-1 envelope. -/
theorem c3_witness :
    Shard.send true (.heartbeat none)
      = .ok [.acquireRateLimiter, .wsSendBytes (.heartbeat none)] ∧
    Shard.identify true ⟨"t", 0, 250, "clyde", 0, 0⟩
      = .ok [.acquireRateLimiter,
             .wsSendBytes (.identify ⟨"t", 0, 250, "clyde", 0, 0⟩)] ∧
    Shard.resume true ⟨"t", 0, 250, "clyde", 0, 0⟩ initShardState
      = .ok [.acquireRateLimiter,
             .wsSendBytes (.resume "t" initShardState.sessionId
                initShardState.sequence)] ∧
    (processEnvelope initShardState ⟨1, .null, some 3, none⟩).effects
      = [.wsSendBytes (.heartbeat (some 3))] ∧
    Effect.acquireRateLimiter ∉
      (processEnvelope initShardState ⟨1, .null, some 3, none⟩).effects ∧
    ∀ st2 j r hb, heartbeatHandler true st2 j r = some hb →
      hb.effects = [.wsSendBytes (.heartbeat st2.sequence)] ∧
      Effect.acquireRateLimiter ∉ hb.effects :=
  c3_send_paths ⟨"t", 0, 250, "clyde", 0, 0⟩ initShardState (.heartbeat none)
    ⟨1, .null, some 3, none⟩ rfl

/-- Claim C3 counterexample: the reply the receive loop sends for an
opcode-1 heartbeat request is a direct websocket write with no rate
limiter acquisition anywhere in its effects, so not every outbound
command passes through the rate-limited send path. -/
theorem c3_counterexample :
    (processEnvelope initShardState ⟨1, .null, some 3, none⟩).effects
      = [.wsSendBytes (.heartbeat (some 3))] ∧
    Effect.acquireRateLimiter ∉
      (processEnvelope initShardState ⟨1, .null, some 3, none⟩).effects := by
  decide

/-- Claim C4 (amended): every binary frame strictly shorter than 4 bytes,
and every binary frame whose trailing 4 bytes differ from the marker
00 00 FF FF, is silently ignored whatever the decoder would do: the state
(the sequence included) is unchanged, no effect — no dispatch — is
produced, and the loop continues.  A 4-byte frame equal to the marker is
not covered: it passes the validity check and reaches the decoder. -/
theorem c4_invalid_frame_ignored (decode : List Nat → DecodeOutcome)
    (st : ShardState) (data : List Nat)
    (h : data.length < 4 ∨ lastFour data ≠ ZLIB_SUFFIX) :
    processMessage decode st (.binary data) = ⟨st, [], .cont⟩ := by
  simp only [processMessage]
  rw [if_pos h]

/-- Claim C4 witness: a 3-byte frame is dropped with no state change and
no effects. -/
theorem c4_witness :
    processMessage (fun _ => .zlibError) initShardState (.binary [1, 2, 3])
      = ⟨initShardState, [], .cont⟩ :=
  c4_invalid_frame_ignored (fun _ => .zlibError) initShardState [1, 2, 3]
    (Or.inl (by norm_num))

/-- Claim C4 counterexample: the 4-byte frame that is exactly the marker
passes the validity check (the length test is strictly-less-than 4) and
is handed to the decoder; with a decoder outcome yielding an envelope the
frame updates the stored sequence, so a frame of 4 bytes is not always
silently ignored. -/
theorem c4_counterexample :
    (processMessage decodeCex initShardState
        (.binary ZLIB_SUFFIX)).state.sequence = some 7 ∧
    initShardState.sequence = none := by
  constructor
  · rfl
  · rfl

/-- A successful payload lookup returns a value stored in the mapping. -/
theorem lookupPD_mem (d : PDict) (key : String) (v : PVal)
    (h : lookupPD d key = some v) : ∃ k0, (k0, v) ∈ d := by
  induction d with
  | nil => simp [lookupPD] at h
  | cons kv rest ih =>
      rw [lookupPD] at h
      by_cases hk : kv.1 = key
      · rw [if_pos hk] at h
        exact ⟨kv.1, by simp [← Option.some_inj.mp h]⟩
      · rw [if_neg hk] at h
        obtain ⟨k0, hm⟩ := ih h
        exact ⟨k0, List.mem_cons_of_mem kv hm⟩

/-- In a payload with no references, no lookup returns a reference. -/
theorem noRefs_lookup (d : PDict) (key : String) (v : PVal)
    (hd : noRefs d = true) (h : lookupPD d key = some v) :
    v.isRef = false := by
  obtain ⟨k0, hm⟩ := lookupPD_mem d key v h
  have := List.all_eq_true.mp hd (k0, v) hm
  simpa using this

/-- On a payload with no nested references, an action leaves the heap
unchanged, and what it observes and whether it raises do not depend on
the heap at all. -/
theorem runAct_flat (view : PDict) (hv : noRefs view = true) (a : HAct)
    (heap heap2 : Heap) :
    (runAct view heap a).heap = heap ∧
    (runAct view heap a).observation = (runAct view heap2 a).observation ∧
    (runAct view heap a).errored = (runAct view heap2 a).errored := by
  cases a with
  | readTop k => exact ⟨rfl, rfl, rfl⟩
  | writeTop k v => exact ⟨rfl, rfl, rfl⟩
  | readNested k f =>
      cases hk : lookupPD view k with
      | none => simp [runAct, hk]
      | some v =>
          cases v with
          | ref r =>
              have := noRefs_lookup view k (.ref r) hv hk
              simp [PVal.isRef] at this
          | int n => simp [runAct, hk]
          | str s => simp [runAct, hk]
  | writeNested k f v =>
      cases hk : lookupPD view k with
      | none => simp [runAct, hk]
      | some v2 =>
          cases v2 with
          | ref r =>
              have := noRefs_lookup view k (.ref r) hv hk
              simp [PVal.isRef] at this
          | int n => simp [runAct, hk]
          | str s => simp [runAct, hk]

/-- On a payload with no nested references, a whole handler leaves the
heap unchanged and its observations and error status are independent of
the heap it started from. -/
theorem runHandler_flat (view : PDict) (hv : noRefs view = true) :
    ∀ (acts : List HAct) (heap heap2 : Heap),
      (runHandler view heap acts).heap = heap ∧
      (runHandler view heap acts).observations
        = (runHandler view heap2 acts).observations ∧
      (runHandler view heap acts).errored
        = (runHandler view heap2 acts).errored := by
  intro acts
  induction acts with
  | nil => exact fun heap heap2 => ⟨rfl, rfl, rfl⟩
  | cons a rest ih =>
      intro heap heap2
      obtain ⟨ha1, ha2, ha3⟩ := runAct_flat view hv a heap heap2
      obtain ⟨hb1, -, -⟩ := runAct_flat view hv a heap2 heap
      simp only [runHandler]
      by_cases he : (runAct view heap a).errored = true
      · have he2 : (runAct view heap2 a).errored = true := by rw [← ha3]; exact he
        rw [if_pos he, if_pos he2]
        exact ⟨ha1, by rw [ha2], rfl⟩
      · have he2 : ¬(runAct view heap2 a).errored = true := by rw [← ha3]; exact he
        rw [if_neg he, if_neg he2]
        obtain ⟨hr1, hr2, hr3⟩ :=
          ih (runAct view heap a).heap (runAct view heap2 a).heap
        refine ⟨by rw [hr1, ha1], ?_, hr3⟩
        rw [ha2, hr2]

/-- On a payload with no nested references, the handler fan-out leaves
the heap unchanged and every handler result (observations and error
status) is independent of the starting heap. -/
theorem runHandlers_flat (prog : Nat → List HAct) (view : PDict)
    (hv : noRefs view = true) :
    ∀ (cs : List Nat) (heap heap2 : Heap),
      (runHandlers prog view heap cs).1 = heap ∧
      ((runHandlers prog view heap cs).2.map HandlerResult.observations)
        = ((runHandlers prog view heap2 cs).2.map HandlerResult.observations) := by
  intro cs
  induction cs with
  | nil => exact fun heap heap2 => ⟨rfl, rfl⟩
  | cons c rest ih =>
      intro heap heap2
      obtain ⟨h1, h2, -⟩ := runHandler_flat view hv (prog c) heap heap2
      simp only [runHandlers]
      obtain ⟨hr1, hr2⟩ :=
        ih (runHandler view heap (prog c)).heap
           (runHandler view heap2 (prog c)).heap
      refine ⟨by rw [hr1, h1], ?_⟩
      simp only [List.map_cons]
      rw [h2, hr2]

/-- Claim C5 (amended): call gives every handler the identical frozen
top-level view, whose mapping no handler can alter (item assignment on
the frozendict raises), so when the payload carries no references to
mutable objects no handler can mutate anything: the heap is returned
unchanged and what each handler observes is independent of the heap —
hence of anything a sibling did.  Nested mutable values, however, are
shared by reference and a mutation through one inside handler H1 is
visible to sibling H2, as the counterexample shows. -/
theorem c5_flat_payload_isolated (prog : Nat → List HAct) (dp : Dispatch)
    (t : String) (data : PDict) (heap heap2 : Heap)
    (hv : noRefs data = true) :
    (Dispatch.call prog dp t data heap).heap = heap ∧
    ((Dispatch.call prog dp t data heap).results.map HandlerResult.observations)
      = ((Dispatch.call prog dp t data heap2).results.map HandlerResult.observations) := by
  cases hk : lookupEvents dp.events t with
  | none => simp [Dispatch.call, hk]
  | some callers =>
      obtain ⟨h1, h2⟩ := runHandlers_flat prog data hv callers heap heap2
      simp only [Dispatch.call, hk]
      exact ⟨h1, h2⟩

/-- Claim C5 witness: a flat one-field payload dispatched to two handlers
leaves any heap unchanged and the observations are heap-independent. -/
theorem c5_witness :
    (Dispatch.call progCex ⟨[("E", [1, 2])]⟩ "E" [("x", PVal.int 1)]
        ⟨[(0, [("y", PVal.int 1)])]⟩).heap = ⟨[(0, [("y", PVal.int 1)])]⟩ ∧
    ((Dispatch.call progCex ⟨[("E", [1, 2])]⟩ "E" [("x", PVal.int 1)]
        ⟨[(0, [("y", PVal.int 1)])]⟩).results.map HandlerResult.observations)
      = ((Dispatch.call progCex ⟨[("E", [1, 2])]⟩ "E" [("x", PVal.int 1)]
        ⟨[]⟩).results.map HandlerResult.observations) :=
  c5_flat_payload_isolated progCex ⟨[("E", [1, 2])]⟩ "E"
    [("x", PVal.int 1)] ⟨[(0, [("y", PVal.int 1)])]⟩ ⟨[]⟩ (by decide)

/-- Claim C5 counterexample: with the payload binding x to a shared
mutable object whose field y is 1, handler 1 writes y = 2 through the
shared reference and sibling handler 2 then reads y = 2 (it would have
read 1 had handler 1 not run) — the mutation inside one handler is
visible to its sibling, because frozendict freezes only the top-level
mapping and shares nested values. -/
theorem c5_counterexample :
    ((Dispatch.call progCex ⟨[("E", [1, 2])]⟩ "E" [("x", PVal.ref 0)]
        ⟨[(0, [("y", PVal.int 1)])]⟩).results.map HandlerResult.observations)
      = [[none], [some (PVal.int 2)]] ∧
    ((Dispatch.call progCex ⟨[("E", [2])]⟩ "E" [("x", PVal.ref 0)]
        ⟨[(0, [("y", PVal.int 1)])]⟩).results.map HandlerResult.observations)
      = [[some (PVal.int 1)]] ∧
    PVal.int 2 ≠ PVal.int 1 := by
  refine ⟨rfl, rfl, by decide⟩

/-- Claim C6: a Hello frame (op 10 with a heartbeat_interval payload in
milliseconds) makes the shard record the interval divided by 1000, start
the first heartbeat cycle with jitter and signal the pending hello wait
— the future a suspended connect call is awaiting — and the jittered
first cycle sleeps interval times r, at most the full interval, for any
random draw r in [0,1), before writing the op-1 heartbeat carrying the
stored sequence. -/
theorem c6_hello_records_starts_signals (st : ShardState) (ms : Int)
    (sq : Option Int) (tv : Option String) (r : Rat)
    (hs : st.helloSignalled = false) (_hr0 : 0 ≤ r) (hr1 : r < 1)
    (hm : 0 ≤ ms) :
    (processEnvelope st
        ⟨10, .obj [("heartbeat_interval", .int ms)], sq, tv⟩).state.heartbeatInterval
      = some ((ms : Rat) / 1000) ∧
    (processEnvelope st
        ⟨10, .obj [("heartbeat_interval", .int ms)], sq, tv⟩).effects
      = [.startHeartbeatTask true, .signalHello] ∧
    (processEnvelope st
        ⟨10, .obj [("heartbeat_interval", .int ms)], sq, tv⟩).state.helloSignalled
      = true ∧
    (processEnvelope st
        ⟨10, .obj [("heartbeat_interval", .int ms)], sq, tv⟩).kind
      = .cont ∧
    heartbeatHandler true
        (processEnvelope st
          ⟨10, .obj [("heartbeat_interval", .int ms)], sq, tv⟩).state true r
      = some { delay := (ms : Rat) / 1000 * r
               state := { st with
                            sequence := sq
                            heartbeatInterval := some ((ms : Rat) / 1000)
                            helloSignalled := true
                            hbReceived := some false }
               effects := [.wsSendBytes (.heartbeat sq)] } ∧
    (ms : Rat) / 1000 * r ≤ (ms : Rat) / 1000 := by
  have hpe : processEnvelope st
      ⟨10, .obj [("heartbeat_interval", .int ms)], sq, tv⟩
      = ⟨{ st with
             sequence := sq
             heartbeatInterval := some ((ms : Rat) / 1000)
             helloSignalled := true },
         [.startHeartbeatTask true, .signalHello], .cont⟩ := by
    simp [processEnvelope, processBody, getItem, lookupFields, hs]
  refine ⟨by rw [hpe], by rw [hpe], by rw [hpe], by rw [hpe], ?_, ?_⟩
  · rw [hpe]
    simp [heartbeatHandler]
  · have hiv : (0 : Rat) ≤ (ms : Rat) / 1000 := by
      apply div_nonneg _ (by norm_num)
      exact_mod_cast hm
    exact mul_le_of_le_one_right hiv (le_of_lt hr1)

/-- Claim C6 witness: Hello with heartbeat_interval 41250 on the fresh
state records 41.25 seconds, starts the jittered cycle, signals hello,
and with r = 1/2 the first delay is 20.625 seconds, at most 41.25. -/
theorem c6_witness :
    (processEnvelope initShardState
        ⟨10, .obj [("heartbeat_interval", .int 41250)], none, none⟩).state.heartbeatInterval
      = some ((41250 : Rat) / 1000) ∧
    (processEnvelope initShardState
        ⟨10, .obj [("heartbeat_interval", .int 41250)], none, none⟩).effects
      = [.startHeartbeatTask true, .signalHello] ∧
    (processEnvelope initShardState
        ⟨10, .obj [("heartbeat_interval", .int 41250)], none, none⟩).state.helloSignalled
      = true ∧
    (processEnvelope initShardState
        ⟨10, .obj [("heartbeat_interval", .int 41250)], none, none⟩).kind
      = .cont ∧
    heartbeatHandler true
        (processEnvelope initShardState
          ⟨10, .obj [("heartbeat_interval", .int 41250)], none, none⟩).state
        true (1 / 2)
      = some { delay := (41250 : Rat) / 1000 * (1 / 2)
               state := { initShardState with
                            sequence := none
                            heartbeatInterval := some ((41250 : Rat) / 1000)
                            helloSignalled := true
                            hbReceived := some false }
               effects := [.wsSendBytes (.heartbeat none)] } ∧
    (41250 : Rat) / 1000 * (1 / 2) ≤ (41250 : Rat) / 1000 :=
  c6_hello_records_starts_signals initShardState 41250 none none (1 / 2)
    rfl (by norm_num) (by norm_num) (by norm_num)

/-- Claim C7: three acquires that find no token available enqueue waiters
W1, W2, W3 in that order, and the reset of a limiter whose capacity is at
least 3 grants them in last-in-first-out order W3, W2, W1. -/
theorem c7_reset_releases_lifo (cap w1 w2 w3 : Nat) (h : 3 ≤ cap) :
    ((((⟨cap, 0, [], true⟩ : RateLimiter).acquire w1).1.acquire
        w2).1.acquire w3).1.waiters = [w1, w2, w3] ∧
    ((((⟨cap, 0, [], true⟩ : RateLimiter).acquire w1).1.acquire
        w2).1.acquire w3).1.reset.2 = [w3, w2, w1] := by
  have hacq : ((((⟨cap, 0, [], true⟩ : RateLimiter).acquire w1).1.acquire
      w2).1.acquire w3).1 = ⟨cap, 0, [w1, w2, w3], true⟩ := by
    simp [RateLimiter.acquire]
  rw [hacq]
  refine ⟨rfl, ?_⟩
  simp [RateLimiter.reset, Nat.min_eq_right h]

/-- Claim C7 witness: capacity 3 releases waiters 1, 2, 3 as 3, 2, 1. -/
theorem c7_witness :
    ((((⟨3, 0, [], true⟩ : RateLimiter).acquire 1).1.acquire
        2).1.acquire 3).1.waiters = [1, 2, 3] ∧
    ((((⟨3, 0, [], true⟩ : RateLimiter).acquire 1).1.acquire
        2).1.acquire 3).1.reset.2 = [3, 2, 1] :=
  c7_reset_releases_lifo 3 1 2 3 (by norm_num)

/-- Claim C8 (amended): remove_call removes the first matching handler
when one is present; when the event type is unknown it fails with the
builtin KeyError raised by the dict subscript, and when the handler is
not in the list it fails with the builtin ValueError raised by
list.remove — it never fails with a HandlerNotRegistered error, which
nothing in the code raises. -/
theorem c8_remove_call_spec (dp : Dispatch) (t : String) (c : Nat) :
    (lookupEvents dp.events t = none →
        dp.remove_call t c = .error (.keyError t)) ∧
    (∀ l, lookupEvents dp.events t = some l → c ∉ l →
        dp.remove_call t c = .error .valueError) ∧
    (∀ l, lookupEvents dp.events t = some l → c ∈ l →
        dp.remove_call t c = .ok ⟨setEvents dp.events t (removeFirst l c)⟩) ∧
    dp.remove_call t c ≠ .error PyError.handlerNotRegistered := by
  refine ⟨?_, ?_, ?_, ?_⟩
  · intro h
    simp [Dispatch.remove_call, h]
  · intro l h hc
    simp [Dispatch.remove_call, h, hc]
  · intro l h hc
    simp [Dispatch.remove_call, h, hc]
  · cases hk : lookupEvents dp.events t with
    | none => simp [Dispatch.remove_call, hk]
    | some l =>
        by_cases hc : c ∈ l <;> simp [Dispatch.remove_call, hk, hc]

/-- Claim C8 witness: removing handler 1 from the event E that only has
handler 2 fails with the builtin ValueError. -/
theorem c8_witness :
    Dispatch.remove_call ⟨[("E", [2])]⟩ "E" 1 = .error PyError.valueError :=
  (c8_remove_call_spec ⟨[("E", [2])]⟩ "E" 1).2.1 [2] rfl (by decide)

/-- Claim C8 counterexample: removing from a dispatcher that has never
seen the event type fails with the builtin KeyError from the dict
subscript, which is not a HandlerNotRegistered error. -/
theorem c8_counterexample :
    Dispatch.remove_call ⟨[]⟩ "E" 1 = .error (.keyError "E") ∧
    PyError.keyError "E" ≠ PyError.handlerNotRegistered := by
  exact ⟨rfl, by decide⟩

/-- Claim C9: dispatching an event type with no registered handlers —
whether the key is absent or its handler list is empty — is an immediate
no-op: the heap is untouched, no handler is invoked and no handler
result (so no error) is produced. -/
theorem c9_call_no_handlers_noop (prog : Nat → List HAct) (dp : Dispatch)
    (t : String) (data : PDict) (heap : Heap)
    (h : lookupEvents dp.events t = none ∨
         lookupEvents dp.events t = some []) :
    (Dispatch.call prog dp t data heap).heap = heap ∧
    (Dispatch.call prog dp t data heap).invoked = [] ∧
    (Dispatch.call prog dp t data heap).results = [] := by
  rcases h with h | h <;> simp [Dispatch.call, h, runHandlers]

/-- Claim C9 witness: calling an empty dispatcher for event E is a no-op
on a concrete payload and heap. -/
theorem c9_witness :
    (Dispatch.call progCex ⟨[]⟩ "E" [("x", PVal.int 1)]
        ⟨[(0, [("y", PVal.int 1)])]⟩).heap = ⟨[(0, [("y", PVal.int 1)])]⟩ ∧
    (Dispatch.call progCex ⟨[]⟩ "E" [("x", PVal.int 1)]
        ⟨[(0, [("y", PVal.int 1)])]⟩).invoked = [] ∧
    (Dispatch.call progCex ⟨[]⟩ "E" [("x", PVal.int 1)]
        ⟨[(0, [("y", PVal.int 1)])]⟩).results = [] :=
  c9_call_no_handlers_noop progCex ⟨[]⟩ "E" [("x", PVal.int 1)]
    ⟨[(0, [("y", PVal.int 1)])]⟩ (Or.inl rfl)

/-- Claim C10: when the done-ack future attribute has never been
assigned — as in the initial connection state, since only the heartbeat
handler creates it, after its initial sleep and just before its send —
an opcode-11 Heartbeat Ack frame is not ignored: the receive loop reads
the missing attribute, the iteration raises an AttributeError, produces
no effect, and no later frame of the run is processed. -/
theorem c10_early_ack_raises (st : ShardState) (e : Envelope)
    (es : List Envelope) (hhb : st.hbReceived = none) (hop : e.op = 11) :
    (runEnvelopes st (e :: es)).kind
      = .raised (.attributeError "_Shard__hb_received") ∧
    (runEnvelopes st (e :: es)).consumed = [e] ∧
    (runEnvelopes st (e :: es)).effects = [] ∧
    initShardState.hbReceived = none ∧
    ∀ ws st2 j r hb, heartbeatHandler ws st2 j r = some hb →
      hb.state.hbReceived = some false := by
  obtain ⟨op, d, sq, tv⟩ := e
  simp only at hop
  subst hop
  have hpe : processEnvelope st ⟨11, d, sq, tv⟩
      = ⟨{ st with sequence := sq }, [],
         .raised (.attributeError "_Shard__hb_received")⟩ := by
    simp [processEnvelope, processBody, hhb]
  refine ⟨?_, ?_, ?_, rfl, ?_⟩
  · simp [runEnvelopes, hpe]
  · simp [runEnvelopes, hpe]
  · simp [runEnvelopes, hpe]
  · intro ws st2 j r hb hEq
    cases ws with
    | false => simp [heartbeatHandler] at hEq
    | true =>
        cases hI : st2.heartbeatInterval with
        | none => simp [heartbeatHandler, hI] at hEq
        | some iv =>
            simp only [heartbeatHandler, hI, if_true] at hEq
            obtain rfl := Option.some_inj.mp hEq
            rfl

/-- Claim C10 witness: an op-11 frame as the first frame of a fresh
session aborts the run with the AttributeError for the missing ack
future. -/
theorem c10_witness :
    (runEnvelopes initShardState [⟨11, .null, none, none⟩]).kind
      = .raised (.attributeError "_Shard__hb_received") ∧
    (runEnvelopes initShardState [⟨11, .null, none, none⟩]).consumed
      = [⟨11, .null, none, none⟩] ∧
    (runEnvelopes initShardState [⟨11, .null, none, none⟩]).effects = [] ∧
    initShardState.hbReceived = none ∧
    ∀ ws st2 j r hb, heartbeatHandler ws st2 j r = some hb →
      hb.state.hbReceived = some false :=
  c10_early_ack_raises initShardState ⟨11, .null, none, none⟩ [] rfl rfl

end Bull
